import Mathlib

/-!
Shallow embedding of the Changpei calibre metadata-source plugin
(src/src/__init__.py).  The plugin talks to the gongzicp.com web API and
appends calibre Metadata records to a caller-supplied result queue.  Here
every HTTP interaction is modelled by an environment value describing what
each endpoint would return, JSON payloads are modelled structurally by the
fields the code reads, and each operation is a pure function returning the
list of records appended to the result queue, the list of log events
emitted, and the list of HTTP requests issued.
-/

namespace ChangpeiModel

/-- Strings are modelled as lists of characters so that the substring
operations used by the cover URL normalization can be reasoned about
directly. -/
abbrev Str := List Char

/-- Raw image bytes, modelled as a list of byte values. -/
abbrev Bytes := List Nat

/-- A parsed publish timestamp, the result of a successful
datetime.strptime call with pattern YYYY-MM-DD HH:MM:SS. -/
structure PDate where
  year : Nat
  month : Nat
  day : Nat
  hour : Nat
  minute : Nat
  second : Nat
deriving DecidableEq, Repr

/-- Greedily consume up to the given number of further decimal digits,
accumulating their value.  Used to model the variable-width numeric fields
of datetime.strptime. -/
def grabDigitsFuel : Nat → Nat → List Char → Nat × List Char
  | 0, acc, s => (acc, s)
  | _ + 1, acc, [] => (acc, [])
  | k + 1, acc, c :: rest =>
    if c.isDigit then grabDigitsFuel k (acc * 10 + (c.toNat - 48)) rest
    else (acc, c :: rest)

/-- Modelled from datetime.strptime: the %Y field, one to four decimal
digits, consumed greedily. -/
def parseYear (s : List Char) : Option (Nat × List Char) :=
  match s with
  | c :: rest => if c.isDigit then some (grabDigitsFuel 3 (c.toNat - 48) rest) else none
  | [] => none

/-- Modelled from datetime.strptime: a one-or-two digit numeric field with
an inclusive range, preferring the two-digit reading when it is in range
and falling back to the one-digit reading otherwise. -/
def parse2Field (lo hi : Nat) (s : List Char) : Option (Nat × List Char) :=
  match s with
  | c1 :: c2 :: rest =>
    if c1.isDigit then
      if c2.isDigit then
        let v2 := (c1.toNat - 48) * 10 + (c2.toNat - 48)
        if lo ≤ v2 ∧ v2 ≤ hi then some (v2, rest)
        else
          let v1 := c1.toNat - 48
          if lo ≤ v1 ∧ v1 ≤ hi then some (v1, c2 :: rest) else none
      else
        let v1 := c1.toNat - 48
        if lo ≤ v1 ∧ v1 ≤ hi then some (v1, c2 :: rest) else none
    else none
  | [c1] =>
    if c1.isDigit then
      let v1 := c1.toNat - 48
      if lo ≤ v1 ∧ v1 ≤ hi then some (v1, []) else none
    else none
  | [] => none

/-- Consume one expected literal character. -/
def litChar (c : Char) : List Char → Option (List Char)
  | d :: rest => if d == c then some rest else none
  | [] => none

/-- Whether a year is a leap year, as in the Gregorian calendar used by
the Python datetime module. -/
def isLeapYear (y : Nat) : Bool :=
  (y % 4 == 0 && y % 100 != 0) || (y % 400 == 0)

/-- Days in a month, used by the datetime constructor validation. -/
def daysInMonth (y m : Nat) : Nat :=
  if m == 2 then (if isLeapYear y then 29 else 28)
  else if m == 4 || m == 6 || m == 9 || m == 11 then 30
  else 31

/-- Modelled from the Python standard library: datetime.strptime with the
fixed pattern used at src/src/__init__.py line 146, namely
YYYY-MM-DD HH:MM:SS.  Returns none exactly when strptime would raise
ValueError: a field fails to match, trailing input remains, or the
resulting calendar date is invalid. -/
def parseDateTime (s : Str) : Option PDate := do
  let (y, s) ← parseYear s
  let s ← litChar '-' s
  let (mo, s) ← parse2Field 1 12 s
  let s ← litChar '-' s
  let (d, s) ← parse2Field 1 31 s
  let s ← litChar ' ' s
  let (h, s) ← parse2Field 0 23 s
  let s ← litChar ':' s
  let (mi, s) ← parse2Field 0 59 s
  let s ← litChar ':' s
  let (sec, s) ← parse2Field 0 59 s
  if s = [] ∧ 1 ≤ y ∧ y ≤ 9999 ∧ d ≤ daysInMonth y mo then
    some ⟨y, mo, d, h, mi, sec⟩
  else none

/-- One entry of the chapterGetList response list; the code reads the
order, type and public_date keys with dict.get, so each is optional. -/
structure ChapterEntry where
  order : Option Str
  type : Option Str
  public_date : Option Str
deriving DecidableEq, Repr

/-- The data object of a chapterGetList response; the code checks for the
list key. -/
structure ChapterData where
  list : Option (List ChapterEntry)
deriving DecidableEq, Repr

/-- Top level of a chapterGetList JSON response: integer code and data
object, both possibly absent. -/
structure ChapterResponse where
  code : Option Int
  data : Option ChapterData
deriving DecidableEq, Repr

/-- The data object of a novelInfo response, with the fields the code
reads via dict.get. -/
structure NovelData where
  novel_name : Option Str
  author_nickname : Option Str
  novel_info : Option Str
  novel_desc : Option Str
  tag_list : Option (List Str)
  novel_cover : Option Str
deriving DecidableEq, Repr

/-- Top level of a novelInfo JSON response. -/
structure DetailResponse where
  code : Option Int
  data : Option NovelData
deriving DecidableEq, Repr

/-- One search hit of the search/novels response list.  Scalar values are
modelled by their string form; a falsy id (missing, None, empty string,
or numeric zero before the str conversion) is modelled as none or the
empty string. -/
structure SearchHit where
  novel_id : Option Str
  novel_name : Option Str
  novel_author : Option Str
  novel_cover : Option Str
  novel_tag_arr : Option (List Str)
  novel_desc : Option Str
deriving DecidableEq, Repr

/-- The data object of a search/novels response: the code reads the count
key unconditionally and the list key after an explicit membership test. -/
structure SearchData where
  count : Option Int
  list : Option (List SearchHit)
deriving DecidableEq, Repr

/-- Top level of a search/novels JSON response. -/
structure SearchResponse where
  code : Option Int
  data : Option SearchData
deriving DecidableEq, Repr

/-- Outcome of one HTTP GET plus JSON decode: the open or read call raised
(transport error), json.loads or the UTF-8 decode raised (bad payload), or
a structurally parsed response was obtained. -/
inductive FetchResult (α : Type) where
  | transportError
  | badJson
  | ok (v : α)
deriving DecidableEq, Repr

/-- Outcome of the binary cover download inside download_cover: the
open or read call raised, or bytes were obtained. -/
inductive DownloadResult where
  | failed
  | ok (b : Bytes)
deriving DecidableEq, Repr

/-- One log event, named after the log call site in the source. -/
inductive LogEntry where
  | infoIdentifyById
  | infoSearchStart
  | infoFoundBooks
  | infoBookResult (i : Nat)
  | infoNoChapters
  | infoFirstChapterDate
  | infoNoIdRunIdentify
  | infoGettingCover
  | infoFoundCoverUrl
  | errApiFailed
  | errSearchApiFailed
  | errNoBookId (i : Nat)
  | errInvalidDateFormat
  | errNoResultAfterIdentify
  | errCoverApiFailed
  | excApi
  | excSearchApi
  | excChapterList
  | excCoverApi
  | excCoverDownload
deriving DecidableEq, Repr

/-- A log event is a diagnostic when it was emitted through log.error or
log.exception rather than log.info. -/
def LogEntry.isDiag : LogEntry → Bool
  | .errApiFailed => true
  | .errSearchApiFailed => true
  | .errNoBookId _ => true
  | .errInvalidDateFormat => true
  | .errNoResultAfterIdentify => true
  | .errCoverApiFailed => true
  | .excApi => true
  | .excSearchApi => true
  | .excChapterList => true
  | .excCoverApi => true
  | .excCoverDownload => true
  | _ => false

/-- One outbound HTTP request, by endpoint and substituted parameter.  The
search request carries the normalized (pre-url-encoding) title. -/
inductive Req where
  | novelInfo (id : Str)
  | chapterList (nid : Str)
  | search (k : Str)
  | coverUrl (u : Str)
deriving DecidableEq, Repr

/-- Result of one public plugin operation: the records appended to the
caller-supplied result queue, in order, the log events emitted, and the
HTTP requests issued.  The operations never raise: every exception inside
them is caught by their try/except blocks, which this total function
models. -/
structure OpResult (α : Type) where
  sink : List α
  logs : List LogEntry
  reqs : List Req
deriving Repr

/-- The record the plugin builds: the calibre Metadata fields the code
assigns.  external_id is the value stored under the changpei key of
mi.identifiers. -/
structure Metadata where
  title : Str
  authors : List Str
  external_id : Str
  comments : Str
  publisher : Str
  language : Str
  tags : List Str
  url : Str
  cover : Str
  pubdate : Option PDate
deriving DecidableEq, Repr

/-- CHANGPEI_NO_BOOKCOVER_URL from the source. -/
def CHANGPEI_NO_BOOKCOVER_URL : Str :=
  ("https://resourcecp-cdn.gongzicp.com/files/images/nocover.jpg").data

/-- SOURCE_PUBLISHER from the source. -/
def SOURCE_PUBLISHER : Str := ("长佩文学").data

/-- The constant language code assigned to every record. -/
def LANG_ZH_CN : Str := ("zh_CN").data

/-- CHANGPEI_BOOK_URL with the id substituted. -/
def changpeiBookUrl (cpid : Str) : Str :=
  ("https://www.gongzicp.com/novel-").data ++ cpid ++ (".html").data

/-- The thumbnail-size query suffix stripped from search-result cover
URLs. -/
def SMALL_STYLE_SUFFIX : Str := ("?x-oss-process=style/small").data

/-- Boolean prefix test on character lists. -/
def isPre : Str → Str → Bool
  | [], _ => true
  | _ :: _, [] => false
  | a :: as, b :: bs => a == b && isPre as bs

/-- Python substring membership, sep in s. -/
def containsSub (sep : Str) : Str → Bool
  | [] => isPre sep []
  | c :: rest => isPre sep (c :: rest) || containsSub sep rest

/-- The part of s strictly before the first occurrence of sep, which is
what s.split(sep)[0] returns in Python when sep occurs in s. -/
def stripAfter (sep : Str) : Str → Str
  | [] => []
  | c :: rest => if isPre sep (c :: rest) then [] else c :: stripAfter sep rest

/-- The cover URL normalization of the search path, src/src/__init__.py
lines 283 to 284: strip the thumbnail-size query suffix when present. -/
def normalizeCoverUrl (s : Str) : Str :=
  if containsSub SMALL_STYLE_SUFFIX s then stripAfter SMALL_STYLE_SUFFIX s else s

/-- First chapter whose order key equals the string 1 and whose type key
equals item; the first selection loop of get_first_chapter_publish_date. -/
def findOrderOneItem : List ChapterEntry → Option ChapterEntry
  | [] => none
  | c :: rest =>
    if c.order = some (("1").data) ∧ c.type = some (("item").data) then some c
    else findOrderOneItem rest

/-- First chapter whose type key equals item; the fallback selection loop
of get_first_chapter_publish_date. -/
def findItemEntry : List ChapterEntry → Option ChapterEntry
  | [] => none
  | c :: rest =>
    if c.type = some (("item").data) then some c
    else findItemEntry rest

/-- The combined chapter selection rule of
get_first_chapter_publish_date: the order-1 item entry when one exists,
otherwise the first item-typed entry. -/
def selectFirstChapter (chapters : List ChapterEntry) : Option ChapterEntry :=
  match findOrderOneItem chapters with
  | some c => some c
  | none => findItemEntry chapters

/-- Changpei.get_first_chapter_publish_date, src/src/__init__.py lines
106 to 153, as a function of what the chapterGetList endpoint returns.
Returns the optional parsed date and the log events emitted.  The
trailing return None paths of the source emit no log.  The chapterGetList
request itself is recorded by the caller. -/
def get_first_chapter_publish_date (resp : FetchResult ChapterResponse) :
    Option PDate × List LogEntry :=
  match resp with
  | .transportError => (none, [LogEntry.excChapterList])
  | .badJson => (none, [LogEntry.excChapterList])
  | .ok r =>
    match r.data, r.code with
    | some cd, some c =>
      if c = 200 then
        match cd.list with
        | some chapters =>
          if chapters.isEmpty then (none, [LogEntry.infoNoChapters])
          else
            match selectFirstChapter chapters with
            | some fc =>
              match fc.public_date with
              | some pd =>
                if pd.isEmpty then (none, [])
                else
                  match parseDateTime pd with
                  | some dt => (some dt, [LogEntry.infoFirstChapterDate])
                  | none => (none, [LogEntry.infoFirstChapterDate, LogEntry.errInvalidDateFormat])
              | none => (none, [])
            | none => (none, [])
        | none => (none, [])
      else (none, [])
    | _, _ => (none, [])

/-- The lookup-by-id branch of Changpei.identify, src/src/__init__.py
lines 194 to 247, as a function of what the novelInfo and chapterGetList
endpoints return.  Reached only for a truthy changpei identifier. -/
def identifyById (cpid : Str) (detail : FetchResult DetailResponse)
    (chap : FetchResult ChapterResponse) : OpResult Metadata :=
  match detail with
  | .transportError =>
    ⟨[], [LogEntry.infoIdentifyById, LogEntry.excApi], [Req.novelInfo cpid]⟩
  | .badJson =>
    ⟨[], [LogEntry.infoIdentifyById, LogEntry.excApi], [Req.novelInfo cpid]⟩
  | .ok r =>
    match r.data, r.code with
    | some nd, some c =>
      if c = 200 then
        let desc0 := nd.novel_info.getD []
        let desc := if desc0.isEmpty then nd.novel_desc.getD [] else desc0
        let cover0 := nd.novel_cover.getD []
        let cover := if cover0.isEmpty then CHANGPEI_NO_BOOKCOVER_URL else cover0
        let pc := get_first_chapter_publish_date chap
        let mi : Metadata :=
          { title := nd.novel_name.getD []
            authors := [nd.author_nickname.getD []]
            external_id := cpid
            comments := desc
            publisher := SOURCE_PUBLISHER
            language := LANG_ZH_CN
            tags := nd.tag_list.getD []
            url := changpeiBookUrl cpid
            cover := cover
            pubdate := pc.1 }
        ⟨[mi], LogEntry.infoIdentifyById :: pc.2,
          [Req.novelInfo cpid, Req.chapterList cpid]⟩
      else ⟨[], [LogEntry.infoIdentifyById, LogEntry.errApiFailed], [Req.novelInfo cpid]⟩
    | _, _ => ⟨[], [LogEntry.infoIdentifyById, LogEntry.errApiFailed], [Req.novelInfo cpid]⟩

/-- Python truthiness of an optional string id: present and non-empty. -/
def searchHitTruthyId (b : SearchHit) : Bool :=
  match b.novel_id with
  | none => false
  | some s => !s.isEmpty

/-- The record built for one search hit, src/src/__init__.py lines 274 to
300.  The cover default here is the placeholder URL only when the
novel_cover key is absent, and the thumbnail suffix is stripped. -/
def buildSearchRecord (b : SearchHit) : Metadata :=
  let nid := b.novel_id.getD []
  { title := b.novel_name.getD []
    authors := [b.novel_author.getD []]
    external_id := nid
    comments := b.novel_desc.getD []
    publisher := SOURCE_PUBLISHER
    language := LANG_ZH_CN
    tags := b.novel_tag_arr.getD []
    url := changpeiBookUrl nid
    cover := normalizeCoverUrl (b.novel_cover.getD CHANGPEI_NO_BOOKCOVER_URL)
    pubdate := none }

/-- The enumerated loop over search hits, src/src/__init__.py lines 268
to 306: a hit with a falsy id is logged and skipped, any other hit is
built and appended in order. -/
def searchLoop : Nat → List SearchHit → List Metadata × List LogEntry
  | _, [] => ([], [])
  | i, b :: rest =>
    let tail := searchLoop (i + 1) rest
    if searchHitTruthyId b then
      (buildSearchRecord b :: tail.1, LogEntry.infoBookResult i :: tail.2)
    else
      (tail.1, LogEntry.errNoBookId i :: tail.2)

/-- The search branch of Changpei.identify, src/src/__init__.py lines 249
to 314, as a function of the normalized title and what the search
endpoint returns.  Reading the count key before the loop raises KeyError
when the key is absent, which the enclosing except block catches. -/
def identifySearch (title : Option Str) (resp : FetchResult SearchResponse) :
    OpResult Metadata :=
  let k := title.getD []
  let core : List Metadata × List LogEntry :=
    match resp with
    | .transportError => ([], [LogEntry.excSearchApi])
    | .badJson => ([], [LogEntry.excSearchApi])
    | .ok r =>
      match r.data, r.code with
      | some d, some c =>
        if c = 200 then
          match d.list with
          | some books =>
            match d.count with
            | some _ =>
              let lp := searchLoop 0 books
              (lp.1, LogEntry.infoFoundBooks :: lp.2)
            | none => ([], [LogEntry.excSearchApi])
          | none => ([], [LogEntry.errSearchApiFailed])
        else ([], [LogEntry.errSearchApiFailed])
      | _, _ => ([], [LogEntry.errSearchApiFailed])
  ⟨core.1, LogEntry.infoSearchStart :: core.2, [Req.search k]⟩

/-- The environment of one identify call: what each of the three JSON
endpoints would return if queried. -/
structure IdentifyEnv where
  detail : FetchResult DetailResponse
  chapters : FetchResult ChapterResponse
  search : FetchResult SearchResponse
deriving Repr

/-- Changpei.identify, src/src/__init__.py lines 183 to 314.  A truthy
changpei identifier selects the lookup-by-id branch, anything else the
search branch.  The abort flag is never consulted by identify. -/
def identify (cp_id : Option Str) (title : Option Str) (env : IdentifyEnv) :
    OpResult Metadata :=
  match cp_id with
  | some cpid =>
    if cpid.isEmpty then identifySearch title env.search
    else identifyById cpid env.detail env.chapters
  | none => identifySearch title env.search

/-- The detail-fetch-and-download part of Changpei.download_cover,
src/src/__init__.py lines 356 to 387, run once an identifier has been
resolved.  An empty cover field or empty downloaded bytes fall out of the
function silently. -/
def download_cover_with_id (cpid : Str) (detail : FetchResult DetailResponse)
    (cover : DownloadResult) : OpResult Bytes :=
  match detail with
  | .transportError =>
    ⟨[], [LogEntry.infoGettingCover, LogEntry.excCoverApi], [Req.novelInfo cpid]⟩
  | .badJson =>
    ⟨[], [LogEntry.infoGettingCover, LogEntry.excCoverApi], [Req.novelInfo cpid]⟩
  | .ok r =>
    match r.data, r.code with
    | some nd, some c =>
      if c = 200 then
        let cover_url := nd.novel_cover.getD []
        if cover_url.isEmpty then ⟨[], [LogEntry.infoGettingCover], [Req.novelInfo cpid]⟩
        else
          match cover with
          | .failed =>
            ⟨[], [LogEntry.infoGettingCover, LogEntry.infoFoundCoverUrl,
                LogEntry.excCoverDownload],
              [Req.novelInfo cpid, Req.coverUrl cover_url]⟩
          | .ok bytes =>
            if bytes.isEmpty then
              ⟨[], [LogEntry.infoGettingCover, LogEntry.infoFoundCoverUrl],
                [Req.novelInfo cpid, Req.coverUrl cover_url]⟩
            else
              ⟨[bytes], [LogEntry.infoGettingCover, LogEntry.infoFoundCoverUrl],
                [Req.novelInfo cpid, Req.coverUrl cover_url]⟩
      else
        ⟨[], [LogEntry.infoGettingCover, LogEntry.errCoverApiFailed], [Req.novelInfo cpid]⟩
    | _, _ =>
      ⟨[], [LogEntry.infoGettingCover, LogEntry.errCoverApiFailed], [Req.novelInfo cpid]⟩

/-- Changpei.download_cover, src/src/__init__.py lines 316 to 387.  When
no identifier is supplied the nested identify call runs first into a
private queue, and only afterwards is the abort flag consulted; abortSet
is the value the flag shows at that check.  The records identify places
in the queue always carry the changpei identifier, so the second
None-recheck of the source is unreachable and the first drained record
supplies the id. -/
def download_cover (cp_id : Option Str) (title : Option Str) (abortSet : Bool)
    (env : IdentifyEnv) (detail : FetchResult DetailResponse)
    (cover : DownloadResult) : OpResult Bytes :=
  match cp_id with
  | some cpid => download_cover_with_id cpid detail cover
  | none =>
    let r := identify none title env
    let logs0 := LogEntry.infoNoIdRunIdentify :: r.logs
    if abortSet then ⟨[], logs0, r.reqs⟩
    else
      match r.sink with
      | [] => ⟨[], logs0 ++ [LogEntry.errNoResultAfterIdentify], r.reqs⟩
      | m :: _ =>
        let rest := download_cover_with_id m.external_id detail cover
        ⟨rest.sink, logs0 ++ rest.logs, r.reqs ++ rest.reqs⟩

/-! Helper lemmas. -/

lemma isEmpty_false_of_ne_nil {α : Type} {l : List α} (h : l ≠ []) : l.isEmpty = false := by
  cases l with
  | nil => exact absurd rfl h
  | cons a as => rfl

lemma isPre_trans : ∀ (a b c : Str), isPre a b = true → isPre b c = true → isPre a c = true
  | [], _, _, _, _ => rfl
  | x :: xs, [], _, h1, _ => by simp [isPre] at h1
  | x :: xs, y :: ys, [], _, h2 => by simp [isPre] at h2
  | x :: xs, y :: ys, z :: zs, h1, h2 => by
    simp only [isPre, Bool.and_eq_true, beq_iff_eq] at h1 h2 ⊢
    exact ⟨h1.1.trans h2.1, isPre_trans xs ys zs h1.2 h2.2⟩

lemma isPre_stripAfter (sep : Str) : ∀ s : Str, isPre (stripAfter sep s) s = true
  | [] => rfl
  | c :: rest => by
    by_cases h : isPre sep (c :: rest) = true
    · simp [stripAfter, h, isPre]
    · simp only [stripAfter, h, if_neg, Bool.false_eq_true, if_false, isPre,
        Bool.and_eq_true, beq_iff_eq]
      exact ⟨by simp, isPre_stripAfter sep rest⟩

lemma containsSub_stripAfter (sep : Str) (hne : sep ≠ []) :
    ∀ s : Str, containsSub sep (stripAfter sep s) = false
  | [] => by
    cases sep with
    | nil => exact absurd rfl hne
    | cons a as => rfl
  | c :: rest => by
    by_cases h : isPre sep (c :: rest) = true
    · simp only [stripAfter, h, if_pos]
      cases sep with
      | nil => exact absurd rfl hne
      | cons a as => rfl
    · simp only [stripAfter, h, if_neg, Bool.false_eq_true, if_false, containsSub,
        Bool.or_eq_false_iff]
      refine ⟨?_, containsSub_stripAfter sep hne rest⟩
      by_contra hmem
      rw [Bool.not_eq_false] at hmem
      have hpp : isPre (c :: stripAfter sep rest) (c :: rest) = true := by
        simp only [isPre, Bool.and_eq_true, beq_iff_eq]
        exact ⟨by simp, isPre_stripAfter sep rest⟩
      exact h (isPre_trans sep (c :: stripAfter sep rest) (c :: rest) hmem hpp)

/-- The filter-and-map function applied to each search hit: a truthy id
keeps the built record, anything else is dropped. -/
def searchKeepFn (b : SearchHit) : Option Metadata :=
  if searchHitTruthyId b then some (buildSearchRecord b) else none

lemma searchLoop_fst : ∀ (i : Nat) (bs : List SearchHit),
    (searchLoop i bs).1 = bs.filterMap searchKeepFn
  | _, [] => rfl
  | i, b :: rest => by
    by_cases h : searchHitTruthyId b = true
    · simp only [searchLoop, h, if_pos, List.filterMap_cons, searchKeepFn]
      rw [searchLoop_fst (i + 1) rest]
    · simp only [searchLoop, h, Bool.false_eq_true, if_false, List.filterMap_cons, searchKeepFn]
      rw [searchLoop_fst (i + 1) rest]

/-! Claim theorems. -/

/-- C8: the cover-URL normalization used by Search-by-Title, which strips
the thumbnail-size query suffix when present, is idempotent: normalizing
an already-normalized URL yields the same URL. -/
theorem C8_normalize_idempotent (s : Str) :
    normalizeCoverUrl (normalizeCoverUrl s) = normalizeCoverUrl s := by
  by_cases h : containsSub SMALL_STYLE_SUFFIX s = true
  · have h2 := containsSub_stripAfter SMALL_STYLE_SUFFIX (by decide) s
    simp [normalizeCoverUrl, h, h2]
  · simp [normalizeCoverUrl, h]

/-- C2: a Lookup-by-ID call with a non-empty identifier whose detail
response has code 200 and a data payload appends exactly one record to
the sink, and that record carries the input id as its changpei
identifier. -/
theorem C2_lookup_unique_record (cpid : Str) (title : Option Str) (env : IdentifyEnv)
    (nd : NovelData) (hne : cpid ≠ [])
    (hdet : env.detail = FetchResult.ok ⟨some 200, some nd⟩) :
    ∃ m, (identify (some cpid) title env).sink = [m] ∧ m.external_id = cpid := by
  obtain ⟨d, ch, se⟩ := env
  cases hdet
  cases cpid with
  | nil => exact absurd rfl hne
  | cons c cs => exact ⟨_, rfl, rfl⟩

/-- Witness for C2 at the id 154936 of the test suite, with a successful
detail response and failing chapter fetch. -/
theorem C2_lookup_unique_record_witness :
    (("154936").data ≠ ([] : Str)) ∧
    (∃ m, (identify (some (("154936").data)) none
        ⟨FetchResult.ok ⟨some 200, some ⟨some (("荒野植被").data), some (("麦香鸡呢").data),
            none, none, some [("破镜重圆").data], none⟩⟩,
          FetchResult.transportError, FetchResult.transportError⟩).sink = [m] ∧
      m.external_id = ("154936").data) :=
  ⟨by decide, C2_lookup_unique_record (("154936").data) none _ _ (by decide) rfl⟩

/-- C9: a Cover-Fetch call with no identifier whose internal identify
step produces an empty result set appends zero entries to the sink, for
any state of the abort flag, any detail response and any download
outcome. -/
theorem C9_cover_no_id_empty_search (title : Option Str) (abortSet : Bool)
    (env : IdentifyEnv) (d : FetchResult DetailResponse) (c : DownloadResult)
    (h : (identify none title env).sink = []) :
    (download_cover none title abortSet env d c).sink = [] := by
  cases abortSet with
  | true => rfl
  | false =>
    simp only [download_cover]
    rw [h]
    rfl

/-- Witness for C9: a transport error on the search endpoint yields an
empty identify result, and the cover fetch then sinks nothing. -/
theorem C9_cover_no_id_empty_search_witness :
    (identify none none
        ⟨FetchResult.transportError, FetchResult.transportError,
          FetchResult.transportError⟩).sink = [] ∧
    (download_cover none none false
        ⟨FetchResult.transportError, FetchResult.transportError,
          FetchResult.transportError⟩ FetchResult.transportError
        DownloadResult.failed).sink = [] :=
  ⟨rfl, C9_cover_no_id_empty_search none false _ FetchResult.transportError
    DownloadResult.failed rfl⟩

/-- C1 counterexample: with no identifier and the abort flag already set,
the nested identify search request is still issued, contradicting the
claim that the identify search is never invoked in that case. -/
theorem C1_cover_abort_counterexample :
    Req.search [] ∈ (download_cover none none true
      ⟨FetchResult.transportError, FetchResult.transportError, FetchResult.transportError⟩
      FetchResult.transportError DownloadResult.failed).reqs := by decide

/-- C1 amended: the cancellation check sits after the nested identify
call, not before it.  With the flag already set and no identifier, the
call still produces zero sink entries and issues no request beyond those
of the nested identify, whose search request is always among them. -/
theorem C1_abort_checked_after_identify (title : Option Str) (env : IdentifyEnv)
    (d : FetchResult DetailResponse) (c : DownloadResult) :
    (download_cover none title true env d c).sink = [] ∧
    (download_cover none title true env d c).reqs = (identify none title env).reqs ∧
    Req.search (title.getD []) ∈ (download_cover none title true env d c).reqs := by
  refine ⟨rfl, rfl, ?_⟩
  show Req.search (title.getD []) ∈ [Req.search (title.getD [])]
  exact List.Mem.head _

/-- C10: a search response with code 200 and a list but no count key
makes the count lookup raise KeyError before the loop; the exception is
caught and logged and the call sinks nothing. -/
theorem C10_missing_count_key (title : Option Str) (env : IdentifyEnv)
    (books : List SearchHit)
    (hs : env.search = FetchResult.ok ⟨some 200, some ⟨none, some books⟩⟩)
    (_hb : books ≠ []) :
    (identify none title env).sink = [] ∧
    LogEntry.excSearchApi ∈ (identify none title env).logs := by
  obtain ⟨d, ch, se⟩ := env
  cases hs
  refine ⟨rfl, ?_⟩
  show LogEntry.excSearchApi ∈ [LogEntry.infoSearchStart, LogEntry.excSearchApi]
  exact List.Mem.tail _ (List.Mem.head _)

/-- Witness for C10 on a one-element search list with the count key
absent. -/
theorem C10_missing_count_key_witness :
    (identify none none
        ⟨FetchResult.transportError, FetchResult.transportError,
          FetchResult.ok ⟨some 200, some ⟨none, some [⟨some (("9").data),
            none, none, none, none, none⟩]⟩⟩⟩).sink = [] ∧
    LogEntry.excSearchApi ∈ (identify none none
        ⟨FetchResult.transportError, FetchResult.transportError,
          FetchResult.ok ⟨some 200, some ⟨none, some [⟨some (("9").data),
            none, none, none, none, none⟩]⟩⟩⟩).logs :=
  C10_missing_count_key none _ [⟨some (("9").data), none, none, none, none, none⟩]
    rfl (by decide)

/-- C3: under a successful search response the sink is exactly the
upstream list filtered of falsy-id entries and mapped to built records,
so sink order equals upstream order and skipped entries do not shift the
records built from later entries. -/
theorem C3_search_order_preserved (title : Option Str) (env : IdentifyEnv)
    (n : Int) (books : List SearchHit)
    (hs : env.search = FetchResult.ok ⟨some 200, some ⟨some n, some books⟩⟩) :
    (identify none title env).sink = books.filterMap searchKeepFn := by
  obtain ⟨d, ch, se⟩ := env
  cases hs
  exact searchLoop_fst 0 books

/-- Witness for C3 on a three-element list whose middle hit lacks an id. -/
theorem C3_search_order_preserved_witness :
    (identify none none
        ⟨FetchResult.transportError, FetchResult.transportError,
          FetchResult.ok ⟨some 200, some ⟨some 3, some
            [⟨some (("1").data), some (("a").data), none, none, none, none⟩,
             ⟨none, some (("b").data), none, none, none, none⟩,
             ⟨some (("2").data), some (("c").data), none, none, none, none⟩]⟩⟩⟩).sink =
      [⟨some (("1").data), some (("a").data), none, none, none, none⟩,
       ⟨none, some (("b").data), none, none, none, none⟩,
       ⟨some (("2").data), some (("c").data), none, none, none, none⟩].filterMap searchKeepFn :=
  C3_search_order_preserved none _ 3 _ rfl

/-- C5: when the publish-date enrichment yields nothing, whether by parse
failure or absence, the Lookup-by-ID record is still constructed and
appended with its publish date unset. -/
theorem C5_date_failure_degrades (cpid : Str) (title : Option Str) (env : IdentifyEnv)
    (nd : NovelData) (hne : cpid ≠ [])
    (hdet : env.detail = FetchResult.ok ⟨some 200, some nd⟩)
    (hdate : (get_first_chapter_publish_date env.chapters).1 = none) :
    ∃ m, (identify (some cpid) title env).sink = [m] ∧ m.pubdate = none := by
  obtain ⟨d, ch, se⟩ := env
  cases hdet
  cases cpid with
  | nil => exact absurd rfl hne
  | cons c cs => exact ⟨_, rfl, hdate⟩

/-- Witness for C5 with an unparseable chapter timestamp. -/
theorem C5_date_failure_degrades_witness :
    (("7").data ≠ ([] : Str)) ∧
    (get_first_chapter_publish_date (FetchResult.ok ⟨some 200, some ⟨some
        [⟨some (("1").data), some (("item").data), some (("not a date").data)⟩]⟩⟩)).1 = none ∧
    ∃ m, (identify (some (("7").data)) none
        ⟨FetchResult.ok ⟨some 200, some ⟨none, none, none, none, none, none⟩⟩,
          FetchResult.ok ⟨some 200, some ⟨some
            [⟨some (("1").data), some (("item").data), some (("not a date").data)⟩]⟩⟩,
          FetchResult.transportError⟩).sink = [m] ∧ m.pubdate = none :=
  ⟨by decide, by decide,
    C5_date_failure_degrades (("7").data) none _ _ (by decide) rfl (by decide)⟩

lemma identifySearch_external_id (t : Option Str) (resp : FetchResult SearchResponse)
    (m : Metadata) (hm : m ∈ (identifySearch t resp).sink) : m.external_id ≠ [] := by
  cases resp with
  | transportError => exact absurd hm (List.not_mem_nil m)
  | badJson => exact absurd hm (List.not_mem_nil m)
  | ok r =>
    obtain ⟨co, da⟩ := r
    cases da with
    | none => exact absurd hm (List.not_mem_nil m)
    | some dd =>
      cases co with
      | none => exact absurd hm (List.not_mem_nil m)
      | some cval =>
        by_cases hc : cval = 200
        · subst hc
          obtain ⟨cnt, lst⟩ := dd
          cases lst with
          | none => exact absurd hm (List.not_mem_nil m)
          | some books =>
            cases cnt with
            | none => exact absurd hm (List.not_mem_nil m)
            | some n =>
              have hm2 : m ∈ books.filterMap searchKeepFn := by
                rw [← searchLoop_fst 0 books]; exact hm
              obtain ⟨b, hb, hfb⟩ := List.mem_filterMap.mp hm2
              unfold searchKeepFn at hfb
              by_cases ht : searchHitTruthyId b = true
              · rw [if_pos ht] at hfb
                obtain rfl : buildSearchRecord b = m := Option.some.inj hfb
                show b.novel_id.getD [] ≠ []
                unfold searchHitTruthyId at ht
                cases hid : b.novel_id with
                | none =>
                  rw [hid] at ht
                  exact Bool.noConfusion ht
                | some s =>
                  rw [hid] at ht
                  rw [Option.getD_some]
                  cases s with
                  | nil => exact Bool.noConfusion ht
                  | cons a as => exact List.cons_ne_nil a as
              · rw [if_neg ht] at hfb
                exact absurd hfb (by simp)
        · have : (identifySearch t (FetchResult.ok ⟨some cval, some dd⟩)).sink = [] := by
            simp only [identifySearch]
            rw [if_neg hc]
          rw [this] at hm
          exact absurd hm (List.not_mem_nil m)

lemma identifyById_external_id (cpid : Str) (d : FetchResult DetailResponse)
    (ch : FetchResult ChapterResponse) (m : Metadata)
    (hm : m ∈ (identifyById cpid d ch).sink) : m.external_id = cpid := by
  cases d with
  | transportError => exact absurd hm (List.not_mem_nil m)
  | badJson => exact absurd hm (List.not_mem_nil m)
  | ok r =>
    obtain ⟨co, da⟩ := r
    cases da with
    | none => exact absurd hm (List.not_mem_nil m)
    | some nd =>
      cases co with
      | none => exact absurd hm (List.not_mem_nil m)
      | some cval =>
        by_cases hc : cval = 200
        · subst hc
          have := List.eq_of_mem_singleton hm
          subst this
          rfl
        · have : (identifyById cpid (FetchResult.ok ⟨some cval, some nd⟩) ch).sink = [] := by
            simp only [identifyById]
            rw [if_neg hc]
          rw [this] at hm
          exact absurd hm (List.not_mem_nil m)

/-- C6: every record any identify call places in the sink carries a
non-empty changpei identifier: the lookup path runs only for a truthy id
which it copies into the record, and the search path skips hits with a
falsy id. -/
theorem C6_sink_ids_nonempty (cp_id title : Option Str) (env : IdentifyEnv) (m : Metadata)
    (hm : m ∈ (identify cp_id title env).sink) : m.external_id ≠ [] := by
  obtain ⟨d, ch, se⟩ := env
  cases cp_id with
  | none => exact identifySearch_external_id title se m hm
  | some cpid =>
    cases cpid with
    | nil => exact identifySearch_external_id title se m hm
    | cons c0 cs =>
      have := identifyById_external_id (c0 :: cs) d ch m hm
      rw [this]
      exact List.cons_ne_nil c0 cs

/-- Witness for C6 on a concrete search result record. -/
theorem C6_sink_ids_nonempty_witness :
    buildSearchRecord ⟨some (("9").data), none, none, none, none, none⟩ ∈
      (identify none none
        ⟨FetchResult.transportError, FetchResult.transportError,
          FetchResult.ok ⟨some 200, some ⟨some 1, some
            [⟨some (("9").data), none, none, none, none, none⟩]⟩⟩⟩).sink ∧
    (buildSearchRecord ⟨some (("9").data), none, none, none, none, none⟩).external_id ≠ [] :=
  ⟨by decide, C6_sink_ids_nonempty none none
    ⟨FetchResult.transportError, FetchResult.transportError,
      FetchResult.ok ⟨some 200, some ⟨some 1, some
        [⟨some (("9").data), none, none, none, none, none⟩]⟩⟩⟩
    (buildSearchRecord ⟨some (("9").data), none, none, none, none, none⟩) (by decide)⟩

lemma findOrderOneItem_eq_find : ∀ chapters : List ChapterEntry,
    findOrderOneItem chapters = chapters.find? fun c =>
      decide (c.order = some (("1").data) ∧ c.type = some (("item").data))
  | [] => rfl
  | c :: rest => by
    by_cases h : c.order = some (("1").data) ∧ c.type = some (("item").data)
    · simp [findOrderOneItem, List.find?_cons, h]
    · simp [findOrderOneItem, List.find?_cons, h, findOrderOneItem_eq_find rest]

lemma findItemEntry_eq_find : ∀ chapters : List ChapterEntry,
    findItemEntry chapters = chapters.find? fun c => decide (c.type = some (("item").data))
  | [] => rfl
  | c :: rest => by
    by_cases h : c.type = some (("item").data)
    · simp [findItemEntry, List.find?_cons, h]
    · simp [findItemEntry, List.find?_cons, h, findItemEntry_eq_find rest]

lemma findOrderOneItem_eq_none (chapters : List ChapterEntry)
    (h : ∀ c ∈ chapters, c.order ≠ some (("1").data)) :
    findOrderOneItem chapters = none := by
  induction chapters with
  | nil => rfl
  | cons c rest ih =>
    have hc : ¬(c.order = some (("1").data) ∧ c.type = some (("item").data)) := by
      intro hand
      exact h c (List.mem_cons_self c rest) hand.1
    rw [findOrderOneItem, if_neg hc]
    exact ih fun x hx => h x (List.mem_cons_of_mem c hx)

/-- C7: the chapter selection takes the first entry with order 1 and type
item, in the sense of List.find?; the fallback takes the first item-typed
entry; a list with no order-1 entry always falls back to the first
item-typed entry; and the selected entry with a non-empty public_date is
parsed through the strptime model for YYYY-MM-DD HH:MM:SS. -/
theorem C7_chapter_selection (chapters : List ChapterEntry) (fc : ChapterEntry) (pd : Str) :
    (findOrderOneItem chapters = chapters.find? fun c =>
        decide (c.order = some (("1").data) ∧ c.type = some (("item").data))) ∧
    (findItemEntry chapters = chapters.find? fun c => decide (c.type = some (("item").data))) ∧
    ((∀ c ∈ chapters, c.order ≠ some (("1").data)) →
      selectFirstChapter chapters =
        chapters.find? fun c => decide (c.type = some (("item").data))) ∧
    (chapters ≠ [] → selectFirstChapter chapters = some fc → fc.public_date = some pd →
      pd ≠ [] →
      (get_first_chapter_publish_date (FetchResult.ok ⟨some 200, some ⟨some chapters⟩⟩)).1 =
        parseDateTime pd) := by
  refine ⟨findOrderOneItem_eq_find chapters, findItemEntry_eq_find chapters, ?_, ?_⟩
  · intro h
    rw [selectFirstChapter, findOrderOneItem_eq_none chapters h]
    exact findItemEntry_eq_find chapters
  · intro hne hsel hpd hpdne
    simp only [get_first_chapter_publish_date, isEmpty_false_of_ne_nil hne, hsel, hpd,
      isEmpty_false_of_ne_nil hpdne, Bool.false_eq_true, if_false]
    cases hparse : parseDateTime pd <;> simp [hparse]

/-- Witness for C7 on a one-chapter list with no order-1 entry and a
parseable timestamp. -/
theorem C7_chapter_selection_witness :
    (selectFirstChapter [⟨some (("2").data), some (("item").data),
        some (("2020-01-02 03:04:05").data)⟩] =
      [(⟨some (("2").data), some (("item").data),
          some (("2020-01-02 03:04:05").data)⟩ : ChapterEntry)].find? fun c =>
        decide (c.type = some (("item").data))) ∧
    ((get_first_chapter_publish_date (FetchResult.ok ⟨some 200, some ⟨some
        [⟨some (("2").data), some (("item").data),
          some (("2020-01-02 03:04:05").data)⟩]⟩⟩)).1 =
      parseDateTime (("2020-01-02 03:04:05").data)) :=
  ⟨(C7_chapter_selection _ ⟨some (("2").data), some (("item").data),
      some (("2020-01-02 03:04:05").data)⟩ (("2020-01-02 03:04:05").data)).2.2.1
      (by decide),
   (C7_chapter_selection _ ⟨some (("2").data), some (("item").data),
      some (("2020-01-02 03:04:05").data)⟩ (("2020-01-02 03:04:05").data)).2.2.2
      (by decide) (by decide) rfl (by decide)⟩

lemma identifyById_upstream_fail (cpid : Str) (ch : FetchResult ChapterResponse)
    (r : DetailResponse) (h : r.code ≠ some 200 ∨ r.data = none) :
    identifyById cpid (FetchResult.ok r) ch =
      ⟨[], [LogEntry.infoIdentifyById, LogEntry.errApiFailed], [Req.novelInfo cpid]⟩ := by
  obtain ⟨co, da⟩ := r
  cases da with
  | none => rfl
  | some nd =>
    cases co with
    | none => rfl
    | some cval =>
      have hcv : ¬(cval = 200) := by
        rcases h with h | h
        · intro he; exact h (by rw [he])
        · exact absurd h (by simp)
      simp only [identifyById]
      rw [if_neg hcv]

lemma identifySearch_upstream_fail (t : Option Str) (r : SearchResponse)
    (h : r.code ≠ some 200 ∨ r.data = none) :
    identifySearch t (FetchResult.ok r) =
      ⟨[], [LogEntry.infoSearchStart, LogEntry.errSearchApiFailed], [Req.search (t.getD [])]⟩ := by
  obtain ⟨co, da⟩ := r
  cases da with
  | none => rfl
  | some dd =>
    cases co with
    | none => rfl
    | some cval =>
      have hcv : ¬(cval = 200) := by
        rcases h with h | h
        · intro he; exact h (by rw [he])
        · exact absurd h (by simp)
      simp only [identifySearch]
      rw [if_neg hcv]

lemma download_cover_with_id_upstream_fail (cpid : Str) (c : DownloadResult)
    (r : DetailResponse) (h : r.code ≠ some 200 ∨ r.data = none) :
    download_cover_with_id cpid (FetchResult.ok r) c =
      ⟨[], [LogEntry.infoGettingCover, LogEntry.errCoverApiFailed], [Req.novelInfo cpid]⟩ := by
  obtain ⟨co, da⟩ := r
  cases da with
  | none => rfl
  | some nd =>
    cases co with
    | none => rfl
    | some cval =>
      have hcv : ¬(cval = 200) := by
        rcases h with h | h
        · intro he; exact h (by rw [he])
        · exact absurd h (by simp)
      simp only [download_cover_with_id]
      rw [if_neg hcv]

lemma download_cover_with_id_download_fail (cpid : Str) (nd : NovelData) (u : Str)
    (hc : nd.novel_cover = some u) (hu : u ≠ []) :
    download_cover_with_id cpid (FetchResult.ok ⟨some 200, some nd⟩) DownloadResult.failed =
      ⟨[], [LogEntry.infoGettingCover, LogEntry.infoFoundCoverUrl, LogEntry.excCoverDownload],
        [Req.novelInfo cpid, Req.coverUrl u]⟩ := by
  simp only [download_cover_with_id, hc, Option.getD_some, isEmpty_false_of_ne_nil hu,
    Bool.false_eq_true, if_false]
  rfl

lemma get_first_parse_fail (chapters : List ChapterEntry) (fc : ChapterEntry) (pd : Str)
    (hne : chapters ≠ []) (hsel : selectFirstChapter chapters = some fc)
    (hpd : fc.public_date = some pd) (hpdne : pd ≠ []) (hparse : parseDateTime pd = none) :
    get_first_chapter_publish_date (FetchResult.ok ⟨some 200, some ⟨some chapters⟩⟩) =
      (none, [LogEntry.infoFirstChapterDate, LogEntry.errInvalidDateFormat]) := by
  simp only [get_first_chapter_publish_date, isEmpty_false_of_ne_nil hne, hsel, hpd,
    isEmpty_false_of_ne_nil hpdne, hparse, Bool.false_eq_true, if_false]
  rfl

/-- C4: each error kind is contained inside the operation that triggered
it.  For Lookup-by-ID and Search-by-Title, a transport error, malformed
JSON, or an upstream failure (code missing or not 200, or data missing)
yields an empty sink and a logged diagnostic; an unparseable chapter
timestamp during Lookup-by-ID yields the one record with its date unset
plus a logged diagnostic; for Cover-Fetch with an id, a transport error,
malformed JSON, an upstream failure, or a failed image download yields an
empty sink and a logged diagnostic.  Every case is a normal return of the
total model function: nothing propagates. -/
theorem C4_error_containment :
    (∀ (cpid : Str) (title : Option Str) (env : IdentifyEnv), cpid ≠ [] →
      env.detail = FetchResult.transportError ∨ env.detail = FetchResult.badJson →
      (identify (some cpid) title env).sink = [] ∧
      (identify (some cpid) title env).logs.any LogEntry.isDiag = true) ∧
    (∀ (cpid : Str) (title : Option Str) (env : IdentifyEnv) (r : DetailResponse),
      cpid ≠ [] → env.detail = FetchResult.ok r →
      r.code ≠ some 200 ∨ r.data = none →
      (identify (some cpid) title env).sink = [] ∧
      (identify (some cpid) title env).logs.any LogEntry.isDiag = true) ∧
    (∀ (cpid : Str) (title : Option Str) (env : IdentifyEnv) (nd : NovelData)
        (chapters : List ChapterEntry) (fc : ChapterEntry) (pd : Str),
      cpid ≠ [] → env.detail = FetchResult.ok ⟨some 200, some nd⟩ →
      env.chapters = FetchResult.ok ⟨some 200, some ⟨some chapters⟩⟩ →
      chapters ≠ [] → selectFirstChapter chapters = some fc →
      fc.public_date = some pd → pd ≠ [] → parseDateTime pd = none →
      ∃ m, (identify (some cpid) title env).sink = [m] ∧ m.pubdate = none ∧
        (identify (some cpid) title env).logs.any LogEntry.isDiag = true) ∧
    (∀ (title : Option Str) (env : IdentifyEnv),
      env.search = FetchResult.transportError ∨ env.search = FetchResult.badJson →
      (identify none title env).sink = [] ∧
      (identify none title env).logs.any LogEntry.isDiag = true) ∧
    (∀ (title : Option Str) (env : IdentifyEnv) (r : SearchResponse),
      env.search = FetchResult.ok r → r.code ≠ some 200 ∨ r.data = none →
      (identify none title env).sink = [] ∧
      (identify none title env).logs.any LogEntry.isDiag = true) ∧
    (∀ (cpid : Str) (title : Option Str) (abortSet : Bool) (env : IdentifyEnv)
        (c : DownloadResult) (d : FetchResult DetailResponse),
      d = FetchResult.transportError ∨ d = FetchResult.badJson →
      (download_cover (some cpid) title abortSet env d c).sink = [] ∧
      (download_cover (some cpid) title abortSet env d c).logs.any LogEntry.isDiag = true) ∧
    (∀ (cpid : Str) (title : Option Str) (abortSet : Bool) (env : IdentifyEnv)
        (c : DownloadResult) (r : DetailResponse),
      r.code ≠ some 200 ∨ r.data = none →
      (download_cover (some cpid) title abortSet env (FetchResult.ok r) c).sink = [] ∧
      (download_cover (some cpid) title abortSet env (FetchResult.ok r) c).logs.any
        LogEntry.isDiag = true) ∧
    (∀ (cpid : Str) (title : Option Str) (abortSet : Bool) (env : IdentifyEnv)
        (nd : NovelData) (u : Str),
      nd.novel_cover = some u → u ≠ [] →
      (download_cover (some cpid) title abortSet env
        (FetchResult.ok ⟨some 200, some nd⟩) DownloadResult.failed).sink = [] ∧
      (download_cover (some cpid) title abortSet env
        (FetchResult.ok ⟨some 200, some nd⟩) DownloadResult.failed).logs.any
        LogEntry.isDiag = true) := by
  refine ⟨?_, ?_, ?_, ?_, ?_, ?_, ?_, ?_⟩
  · intro cpid title env hne hd
    obtain ⟨d, ch, se⟩ := env
    cases cpid with
    | nil => exact absurd rfl hne
    | cons c0 cs => rcases hd with hd | hd <;> cases hd <;> exact ⟨rfl, rfl⟩
  · intro cpid title env r hne hd h
    obtain ⟨d, ch, se⟩ := env
    cases hd
    cases cpid with
    | nil => exact absurd rfl hne
    | cons c0 cs =>
      have hq := identifyById_upstream_fail (c0 :: cs) ch r h
      constructor
      · show (identifyById (c0 :: cs) (FetchResult.ok r) ch).sink = []
        rw [hq]
      · show (identifyById (c0 :: cs) (FetchResult.ok r) ch).logs.any LogEntry.isDiag = true
        rw [hq]
        rfl
  · intro cpid title env nd chapters fc pd hne hdet hchap hcne hsel hpd hpdne hparse
    obtain ⟨d, ch, se⟩ := env
    cases hdet
    cases hchap
    cases cpid with
    | nil => exact absurd rfl hne
    | cons c0 cs =>
      have hg := get_first_parse_fail chapters fc pd hcne hsel hpd hpdne hparse
      refine ⟨_, rfl, ?_, ?_⟩
      · show (get_first_chapter_publish_date
            (FetchResult.ok ⟨some 200, some ⟨some chapters⟩⟩)).1 = none
        rw [hg]
      · show (LogEntry.infoIdentifyById :: (get_first_chapter_publish_date
            (FetchResult.ok ⟨some 200, some ⟨some chapters⟩⟩)).2).any LogEntry.isDiag = true
        rw [hg]
        rfl
  · intro title env hd
    obtain ⟨d, ch, se⟩ := env
    rcases hd with hd | hd <;> cases hd <;> exact ⟨rfl, rfl⟩
  · intro title env r hs h
    obtain ⟨d, ch, se⟩ := env
    cases hs
    have hq := identifySearch_upstream_fail title r h
    constructor
    · show (identifySearch title (FetchResult.ok r)).sink = []
      rw [hq]
    · show (identifySearch title (FetchResult.ok r)).logs.any LogEntry.isDiag = true
      rw [hq]
      rfl
  · intro cpid title abortSet env c d hd
    rcases hd with hd | hd <;> cases hd <;> exact ⟨rfl, rfl⟩
  · intro cpid title abortSet env c r h
    have hq := download_cover_with_id_upstream_fail cpid c r h
    constructor
    · show (download_cover_with_id cpid (FetchResult.ok r) c).sink = []
      rw [hq]
    · show (download_cover_with_id cpid (FetchResult.ok r) c).logs.any LogEntry.isDiag = true
      rw [hq]
      rfl
  · intro cpid title abortSet env nd u hc hu
    have hq := download_cover_with_id_download_fail cpid nd u hc hu
    constructor
    · show (download_cover_with_id cpid
        (FetchResult.ok ⟨some 200, some nd⟩) DownloadResult.failed).sink = []
      rw [hq]
    · show (download_cover_with_id cpid
        (FetchResult.ok ⟨some 200, some nd⟩) DownloadResult.failed).logs.any
        LogEntry.isDiag = true
      rw [hq]
      rfl

/-- Witness for C4: each contained-error scenario exercised at a concrete
input: transport error, upstream failure and unparseable date on the
lookup path, transport error and upstream failure on the search path, and
transport error, upstream failure and failed image download on the cover
path. -/
theorem C4_error_containment_witness :
    ((identify (some (("5").data)) none
        ⟨FetchResult.transportError, FetchResult.transportError,
          FetchResult.transportError⟩).sink = [] ∧
      (identify (some (("5").data)) none
        ⟨FetchResult.transportError, FetchResult.transportError,
          FetchResult.transportError⟩).logs.any LogEntry.isDiag = true) ∧
    ((identify (some (("5").data)) none
        ⟨FetchResult.ok ⟨some 500, none⟩, FetchResult.transportError,
          FetchResult.transportError⟩).sink = [] ∧
      (identify (some (("5").data)) none
        ⟨FetchResult.ok ⟨some 500, none⟩, FetchResult.transportError,
          FetchResult.transportError⟩).logs.any LogEntry.isDiag = true) ∧
    (∃ m, (identify (some (("5").data)) none
        ⟨FetchResult.ok ⟨some 200, some ⟨none, none, none, none, none, none⟩⟩,
          FetchResult.ok ⟨some 200, some ⟨some
            [⟨some (("1").data), some (("item").data), some (("nope").data)⟩]⟩⟩,
          FetchResult.transportError⟩).sink = [m] ∧ m.pubdate = none ∧
      (identify (some (("5").data)) none
        ⟨FetchResult.ok ⟨some 200, some ⟨none, none, none, none, none, none⟩⟩,
          FetchResult.ok ⟨some 200, some ⟨some
            [⟨some (("1").data), some (("item").data), some (("nope").data)⟩]⟩⟩,
          FetchResult.transportError⟩).logs.any LogEntry.isDiag = true) ∧
    ((identify none none
        ⟨FetchResult.transportError, FetchResult.transportError,
          FetchResult.transportError⟩).sink = [] ∧
      (identify none none
        ⟨FetchResult.transportError, FetchResult.transportError,
          FetchResult.transportError⟩).logs.any LogEntry.isDiag = true) ∧
    ((identify none none
        ⟨FetchResult.transportError, FetchResult.transportError,
          FetchResult.ok ⟨none, none⟩⟩).sink = [] ∧
      (identify none none
        ⟨FetchResult.transportError, FetchResult.transportError,
          FetchResult.ok ⟨none, none⟩⟩).logs.any LogEntry.isDiag = true) ∧
    ((download_cover (some (("5").data)) none false
        ⟨FetchResult.transportError, FetchResult.transportError,
          FetchResult.transportError⟩ FetchResult.transportError
        DownloadResult.failed).sink = [] ∧
      (download_cover (some (("5").data)) none false
        ⟨FetchResult.transportError, FetchResult.transportError,
          FetchResult.transportError⟩ FetchResult.transportError
        DownloadResult.failed).logs.any LogEntry.isDiag = true) ∧
    ((download_cover (some (("5").data)) none false
        ⟨FetchResult.transportError, FetchResult.transportError,
          FetchResult.transportError⟩ (FetchResult.ok ⟨none, none⟩)
        DownloadResult.failed).sink = [] ∧
      (download_cover (some (("5").data)) none false
        ⟨FetchResult.transportError, FetchResult.transportError,
          FetchResult.transportError⟩ (FetchResult.ok ⟨none, none⟩)
        DownloadResult.failed).logs.any LogEntry.isDiag = true) ∧
    ((download_cover (some (("5").data)) none false
        ⟨FetchResult.transportError, FetchResult.transportError,
          FetchResult.transportError⟩
        (FetchResult.ok ⟨some 200, some ⟨none, none, none, none, none,
          some (("u").data)⟩⟩) DownloadResult.failed).sink = [] ∧
      (download_cover (some (("5").data)) none false
        ⟨FetchResult.transportError, FetchResult.transportError,
          FetchResult.transportError⟩
        (FetchResult.ok ⟨some 200, some ⟨none, none, none, none, none,
          some (("u").data)⟩⟩) DownloadResult.failed).logs.any LogEntry.isDiag = true) :=
  ⟨C4_error_containment.1 (("5").data) none
      ⟨FetchResult.transportError, FetchResult.transportError, FetchResult.transportError⟩
      (by decide) (Or.inl rfl),
    C4_error_containment.2.1 (("5").data) none
      ⟨FetchResult.ok ⟨some 500, none⟩, FetchResult.transportError,
        FetchResult.transportError⟩ ⟨some 500, none⟩ (by decide) rfl (Or.inr rfl),
    C4_error_containment.2.2.1 (("5").data) none
      ⟨FetchResult.ok ⟨some 200, some ⟨none, none, none, none, none, none⟩⟩,
        FetchResult.ok ⟨some 200, some ⟨some
          [⟨some (("1").data), some (("item").data), some (("nope").data)⟩]⟩⟩,
        FetchResult.transportError⟩ ⟨none, none, none, none, none, none⟩
      [⟨some (("1").data), some (("item").data), some (("nope").data)⟩]
      ⟨some (("1").data), some (("item").data), some (("nope").data)⟩ (("nope").data)
      (by decide) rfl rfl (by decide) (by decide) rfl (by decide) (by decide),
    C4_error_containment.2.2.2.1 none
      ⟨FetchResult.transportError, FetchResult.transportError, FetchResult.transportError⟩
      (Or.inl rfl),
    C4_error_containment.2.2.2.2.1 none
      ⟨FetchResult.transportError, FetchResult.transportError,
        FetchResult.ok ⟨none, none⟩⟩ ⟨none, none⟩ rfl (Or.inr rfl),
    C4_error_containment.2.2.2.2.2.1 (("5").data) none false
      ⟨FetchResult.transportError, FetchResult.transportError, FetchResult.transportError⟩
      DownloadResult.failed FetchResult.transportError (Or.inl rfl),
    C4_error_containment.2.2.2.2.2.2.1 (("5").data) none false
      ⟨FetchResult.transportError, FetchResult.transportError, FetchResult.transportError⟩
      DownloadResult.failed ⟨none, none⟩ (Or.inr rfl),
    C4_error_containment.2.2.2.2.2.2.2 (("5").data) none false
      ⟨FetchResult.transportError, FetchResult.transportError, FetchResult.transportError⟩
      ⟨none, none, none, none, none, some (("u").data)⟩ (("u").data) rfl (by decide)⟩

end ChangpeiModel
